import Mathlib

/-!
Verification of the code2pseudocode editor extension.

The development shallowly embeds the state-management core of the
extension: the translation cache (`pseudocodeCache`, a string-keyed map),
the hover-provider conversion path (`provideHover`), the command-invocation
conversion path (`convertToPseudocode`), the API bridge
(`codeToPseudocode`), and the content-change invalidation listener
(`onDidChangeTextDocument`).

External collaborators are abstracted as explicit parameters:
  * the explanation service is a stub `String → ServiceResult` mapping the
    outbound request payload to either a successful text, an HTTP error
    carrying a status, or a network-level failure;
  * the credential (`process.env.CLAUDE_API_KEY`) is an `Option String`;
  * the editor supplies the raw hovered line text, the selection text and
    the whole-document text as plain strings.
Each operation returns, besides its outcome, the list of request payloads
sent to the service stub (so "no network call" is `calls = []`) and the
resulting cache state.
-/

namespace Code2Pseudocode

/-- The translation cache: the model of the module-level
`pseudocodeCache = new Map<string, string>()`.  Only its observable
behaviour through `get`/`set`/`clear` matters, so an association list with
first-match lookup is an adequate model: `set` prepends (shadowing any
older binding for the same key), `clear` empties. -/
abbrev Cache := List (String × String)

/-- `lookup cache fragment`: the model of `pseudocodeCache.get(fragment)`
(and of the `has` test that guards it). -/
def lookup (cache : Cache) (fragment : String) : Option String :=
  List.lookup fragment cache

/-- `store cache fragment explanation`: the model of
`pseudocodeCache.set(fragment, explanation)`. -/
def store (cache : Cache) (fragment explanation : String) : Cache :=
  (fragment, explanation) :: cache

/-- `invalidateAll cache`: the model of `pseudocodeCache.clear()`. -/
def invalidateAll (_ : Cache) : Cache := []

/-- The JavaScript `String.prototype.trim()` used throughout the source:
strip whitespace from both ends.  (Embedded over the character list so
that it evaluates by kernel reduction.) -/
def trim (s : String) : String :=
  ⟨((s.data.dropWhile Char.isWhitespace).reverse.dropWhile Char.isWhitespace).reverse⟩

/-- The JavaScript `String.prototype.startsWith(p)` used by the hover
provider's comment check. -/
def startsWith (s p : String) : Bool :=
  p.data.isPrefixOf s.data

/-- One entry of `event.contentChanges` in a
`vscode.workspace.onDidChangeTextDocument` event: the inserted text and the
length of the replaced range. -/
structure ContentChange where
  text : String
  rangeLength : Nat
  deriving DecidableEq

/-- The `hasRealChanges` test of the change listener (extension.ts):
`event.contentChanges.some(change => change.text.trim() !== '' || change.rangeLength > 0)`. -/
def hasRealChanges (contentChanges : List ContentChange) : Bool :=
  contentChanges.any fun change =>
    trim change.text != "" || decide (change.rangeLength > 0)

/-- The body of the `onDidChangeTextDocument` listener: if the event has
content changes and some change is "real", clear the whole cache. -/
def onDidChangeTextDocument (cache : Cache) (contentChanges : List ContentChange) : Cache :=
  if contentChanges.length > 0 then
    if hasRealChanges contentChanges then invalidateAll cache else cache
  else cache

/-- What the stubbed explanation service answers to one request payload. -/
inductive ServiceResult
  | ok (text : String)
  | httpError (status : Nat) (dataErrorMessage : Option String) (errMessage : String)
  | networkError (errMessage : String)
  deriving DecidableEq

/-- The error taxonomy of `codeToPseudocode` (claudeApi.ts): the missing
`CLAUDE_API_KEY` throw, the `err.response` branch carrying the upstream
status and message, and the generic network-failure branch. -/
inductive ApiError
  | missingApiKey
  | serviceError (status : Nat) (message : String)
  | transportError (message : String)
  deriving DecidableEq

/-- The outbound request payload built from a code fragment
(the `userMessage` template literal in claudeApi.ts). -/
def userMessage (code : String) : String :=
  "Please convert the following code into detailed pseudocode. No additional explanations are needed; output only the pseudocode: \n\n" ++ code

/-- The message of a `TranslationServiceError`:
`err.response.data.error?.message || err.message` (JavaScript `||`, so an
absent or empty upstream message falls back to `err.message`). -/
def resolveErrorMessage (dataErrorMessage : Option String) (errMessage : String) : String :=
  match dataErrorMessage with
  | some m => if m = "" then errMessage else m
  | none => errMessage

/-- `codeToPseudocode` (claudeApi.ts): check the credential, then perform
the single axios request and map its result.  The second component lists
the request payloads actually sent to the service. -/
def codeToPseudocode (apiKey : Option String) (stub : String → ServiceResult)
    (code : String) : Except ApiError String × List String :=
  match apiKey with
  | none => (.error .missingApiKey, [])
  | some _ =>
    match stub (userMessage code) with
    | .ok text => (.ok text, [userMessage code])
    | .httpError status dataMsg errMsg =>
        (.error (.serviceError status (resolveErrorMessage dataMsg errMsg)), [userMessage code])
    | .networkError errMsg => (.error (.transportError errMsg), [userMessage code])

/-- The observable result of one `provideHover` invocation. -/
inductive HoverOutcome
  | noHover
  | missingKeyHover
  | cachedHover (pseudocode : String)
  | freshHover (pseudocode : String)
  | errorHover (e : ApiError)
  deriving DecidableEq

/-- One run of `provideHover`: its outcome, the cache afterwards, and the
request payloads sent to the service. -/
structure HoverRun where
  outcome : HoverOutcome
  cache : Cache
  calls : List String
  deriving DecidableEq

/-- The hover provider of extension.ts: trim the hovered line; skip empty
lines and Python comments; fail without the API key; on a cache hit show
the cached pseudocode; on a miss call `codeToPseudocode` and store a
successful result under the line text; show the error on failure. -/
def provideHover (cache : Cache) (apiKey : Option String) (rawLineText : String)
    (stub : String → ServiceResult) : HoverRun :=
  let lineText := trim rawLineText
  if lineText == "" || startsWith lineText "#" then
    ⟨.noHover, cache, []⟩
  else
    match apiKey with
    | none => ⟨.missingKeyHover, cache, []⟩
    | some a =>
      let cacheKey := lineText
      match lookup cache cacheKey with
      | some cachedPseudocode => ⟨.cachedHover cachedPseudocode, cache, []⟩
      | none =>
        match codeToPseudocode (some a) stub lineText with
        | (.ok pseudocode, calls) => ⟨.freshHover pseudocode, store cache cacheKey pseudocode, calls⟩
        | (.error e, calls) => ⟨.errorHover e, cache, calls⟩

/-- The observable result of one command invocation
(`code2pseudocode.convertToPseudocode`). -/
inductive CommandOutcome
  | emptyFileError
  | missingKeyError
  | success (pseudocode : String)
  | conversionFailed (e : ApiError)
  deriving DecidableEq

/-- One run of the command path: its outcome and the request payloads sent
to the service. -/
structure CommandRun where
  outcome : CommandOutcome
  calls : List String
  deriving DecidableEq

/-- The tail of `convertToPseudocode` once the text to convert is fixed:
the API-key guard followed by the `codeToPseudocode` call inside the
progress indicator (errors are caught and reported, never retried). -/
def convertSelected (apiKey : Option String) (stub : String → ServiceResult)
    (selectedText : String) : CommandRun :=
  match apiKey with
  | none => ⟨.missingKeyError, []⟩
  | some a =>
    match codeToPseudocode (some a) stub selectedText with
    | (.ok pseudocode, calls) => ⟨.success pseudocode, calls⟩
    | (.error e, calls) => ⟨.conversionFailed e, calls⟩

/-- `convertToPseudocode` (extension.ts): take the selection; if it is
whitespace-only fall back to the whole document; if that is also
whitespace-only report the empty-file error; otherwise convert the chosen
text.  The `isAutoUpdate` flag only suppresses user-visible messages and
does not change the outcome structure, so it is not modelled. -/
def convertToPseudocode (apiKey : Option String) (stub : String → ServiceResult)
    (selectionText documentText : String) : CommandRun :=
  if trim selectionText == "" then
    if trim documentText == "" then ⟨.emptyFileError, []⟩
    else convertSelected apiKey stub documentText
  else convertSelected apiKey stub selectionText

/-- An abstract cache operation, for stating the store/lookup invariant
over an arbitrary interleaving of cache mutations. -/
inductive CacheOp
  | opStore (fragment explanation : String)
  | opInvalidate
  deriving DecidableEq

/-- Apply one abstract cache operation. -/
def applyOp (cache : Cache) : CacheOp → Cache
  | .opStore f e => store cache f e
  | .opInvalidate => invalidateAll cache

/-- Apply a sequence of abstract cache operations, oldest first. -/
def applyOps (cache : Cache) : List CacheOp → Cache
  | [] => cache
  | op :: ops => applyOps (applyOp cache op) ops

/-- `avoids F op` holds when `op` neither stores under the key `F` nor
invalidates the cache. -/
def avoids (F : String) : CacheOp → Bool
  | .opStore f _ => f != F
  | .opInvalidate => false

/-! ## Helper lemmas -/

theorem lookup_store_self (c : Cache) (F E : String) :
    lookup (store c F E) F = some E := by
  simp [lookup, store, List.lookup]

theorem lookup_store_ne (c : Cache) (F G E : String) (h : G ≠ F) :
    lookup (store c F E) G = lookup c G := by
  simp [lookup, store, List.lookup, beq_false_of_ne h]

theorem lookup_preserved (F E : String) :
    ∀ (ops : List CacheOp) (c : Cache), lookup c F = some E →
      (∀ op ∈ ops, avoids F op = true) → lookup (applyOps c ops) F = some E
  | [], _, h, _ => h
  | op :: ops, c, h, hall => by
    have hop := hall op (List.mem_cons_self op ops)
    have htail : ∀ op ∈ ops, avoids F op = true :=
      fun o ho => hall o (List.mem_cons_of_mem op ho)
    match op, hop with
    | .opStore f e, hop =>
      have hf : f ≠ F := by simpa [avoids] using hop
      have hstep : lookup (applyOp c (.opStore f e)) F = some E := by
        rw [applyOp, lookup_store_ne c f F e (Ne.symm hf)]; exact h
      exact lookup_preserved F E ops _ hstep htail

theorem convertSelected_outcome_ne_empty (apiKey : Option String)
    (stub : String → ServiceResult) (t : String) :
    (convertSelected apiKey stub t).outcome ≠ .emptyFileError := by
  cases apiKey with
  | none => simp [convertSelected]
  | some a => cases h : stub (userMessage t) <;>
      simp [convertSelected, codeToPseudocode, h]

theorem convertSelected_calls (a : String) (stub : String → ServiceResult) (t : String) :
    (convertSelected (some a) stub t).calls = [userMessage t] := by
  cases h : stub (userMessage t) <;> simp [convertSelected, codeToPseudocode, h]

/-! ## Claim theorems -/

/-- Claim C1: for every fragment that has an entry in the cache (and passes
the hover guard: non-empty after trimming, not a Python comment), the hover
conversion returns the cached explanation, sends no request to the
explanation service, and leaves the cache unchanged. -/
theorem hover_cache_hit_no_network (c : Cache) (a rawLine e : String)
    (stub : String → ServiceResult)
    (hne : trim rawLine ≠ "")
    (hcm : startsWith (trim rawLine) "#" = false)
    (hhit : lookup c (trim rawLine) = some e) :
    provideHover c (some a) rawLine stub = ⟨.cachedHover e, c, []⟩ := by
  simp [provideHover, hne, hcm, hhit]

/-- Witness for C1: with `"x = y"` cached, hovering over it returns the
cached explanation with no service call. -/
theorem hover_cache_hit_no_network_witness :
    provideHover [("x = y", "X := Y")] (some "key") "x = y" (fun _ => .ok "fresh") =
      ⟨.cachedHover "X := Y", [("x = y", "X := Y")], []⟩ :=
  hover_cache_hit_no_network [("x = y", "X := Y")] "key" "x = y" "X := Y"
    (fun _ => .ok "fresh") (by decide) (by decide) (by decide)

/-- Claim C2: after `store(F, E)`, as long as no subsequent operation
invalidates the cache or stores under `F`, `lookup F` keeps returning `E`. -/
theorem store_lookup_invariant (c : Cache) (F E : String) (ops : List CacheOp)
    (h : ∀ op ∈ ops, avoids F op = true) :
    lookup (applyOps (store c F E) ops) F = some E :=
  lookup_preserved F E ops (store c F E) (lookup_store_self c F E) h

/-- Witness for C2: an intervening store under a different key does not
disturb the cached entry. -/
theorem store_lookup_invariant_witness :
    lookup (applyOps (store [] "x = y" "X := Y") [.opStore "z = 1" "Z := 1"]) "x = y" =
      some "X := Y" :=
  store_lookup_invariant [] "x = y" "X := Y" [.opStore "z = 1" "Z := 1"] (by decide)

/-- Counterexample to C3 as stated: a content change whose text is pure
whitespace (`"  "`) but whose replaced range is non-empty (`rangeLength = 3`,
e.g. a deletion) does discard the whole cache, although the claim's
"if and only if its changed text is not pure whitespace and not
zero-length" says it must not. -/
theorem change_invalidation_counterexample :
    trim "  " = "" ∧
    onDidChangeTextDocument [("x = 1", "X := 1")] [⟨"  ", 3⟩] =
      invalidateAll [("x = 1", "X := 1")] ∧
    invalidateAll [("x = 1", "X := 1")] ≠ [("x = 1", "X := 1")] := by
  refine ⟨by decide, by decide, by decide⟩

/-- Claim C3 (amended): a content-change event discards the entire cache if
and only if some change in it has text that is not pure whitespace OR a
positive replaced-range length; in particular an event whose single change
is two spaces with zero range length leaves all entries intact, while one
inserting `"y = 2"` clears every entry. -/
theorem change_invalidation_characterization (c : Cache) (changes : List ContentChange) :
    onDidChangeTextDocument c changes =
      (if hasRealChanges changes then invalidateAll c else c) ∧
    onDidChangeTextDocument c [⟨"  ", 0⟩] = c ∧
    onDidChangeTextDocument c [⟨"y = 2", 0⟩] = invalidateAll c := by
  refine ⟨?_, ?_, ?_⟩
  · cases changes with
    | nil => simp [onDidChangeTextDocument, hasRealChanges]
    | cons ch t => simp [onDidChangeTextDocument]
  · have h : hasRealChanges [⟨"  ", 0⟩] = false := by decide
    simp [onDidChangeTextDocument, h]
  · have h : hasRealChanges [⟨"y = 2", 0⟩] = true := by decide
    simp [onDidChangeTextDocument, h]

/-- Claim C4: the fragment string is the cache key verbatim: storing under
one key leaves the lookup of any other key (in particular one differing
only in whitespace) unchanged, and on a fresh cache that other key still
maps to nothing. -/
theorem verbatim_cache_key (c : Cache) (F G E : String) (h : G ≠ F) :
    lookup (store c F E) G = lookup c G ∧ lookup (store [] F E) G = none := by
  exact ⟨lookup_store_ne c F G E h, lookup_store_ne [] F G E h⟩

/-- Witness for C4: `"x = y"` and `"x  =  y"` differ only in whitespace and
are distinct cache keys. -/
theorem verbatim_cache_key_witness :
    lookup (store [] "x = y" "X := Y") "x  =  y" = lookup [] "x  =  y" ∧
    lookup (store [] "x = y" "X := Y") "x  =  y" = none :=
  verbatim_cache_key [] "x = y" "x  =  y" "X := Y" (by decide)

/-- Claim C9: after `invalidateAll`, every lookup returns `none`. -/
theorem invalidate_all_lookup_none (c : Cache) (F : String) :
    lookup (invalidateAll c) F = none := rfl

/-- Claim C5: for every empty or whitespace-only fragment, both conversion
entry points refuse to convert: the hover provider yields no hover and the
command path (here with the whole document equally blank, so the fallback
cannot rescue it) reports the empty-input error; neither sends a request to
the explanation service, and the cache is untouched. -/
theorem empty_input_no_conversion (c : Cache) (apiKey : Option String)
    (stub : String → ServiceResult) (fragment : String) (h : trim fragment = "") :
    provideHover c apiKey fragment stub = ⟨.noHover, c, []⟩ ∧
    convertToPseudocode apiKey stub fragment fragment = ⟨.emptyFileError, []⟩ := by
  constructor
  · simp [provideHover, h]
  · simp [convertToPseudocode, h]

/-- Witness for C5 at `""` and at `"   "`. -/
theorem empty_input_no_conversion_witness :
    (provideHover [("a", "b")] (some "key") "" (fun _ => .ok "E") =
        ⟨.noHover, [("a", "b")], []⟩ ∧
      convertToPseudocode (some "key") (fun _ => .ok "E") "" "" =
        ⟨.emptyFileError, []⟩) ∧
    (provideHover [("a", "b")] (some "key") "   " (fun _ => .ok "E") =
        ⟨.noHover, [("a", "b")], []⟩ ∧
      convertToPseudocode (some "key") (fun _ => .ok "E") "   " "   " =
        ⟨.emptyFileError, []⟩) :=
  ⟨empty_input_no_conversion [("a", "b")] (some "key") (fun _ => .ok "E") "" (by decide),
   empty_input_no_conversion [("a", "b")] (some "key") (fun _ => .ok "E") "   " (by decide)⟩

/-- Claim C6: with no credential configured, every conversion path fails
with the missing-credential error before any network I/O: the API bridge
itself, the command path (on a non-blank selection), and the hover path
(on a line that passes the guard) all return without sending a request. -/
theorem missing_credential_no_network (c : Cache) (code selText docText rawLine : String)
    (stub : String → ServiceResult)
    (hsel : trim selText ≠ "")
    (hne : trim rawLine ≠ "")
    (hcm : startsWith (trim rawLine) "#" = false) :
    codeToPseudocode none stub code = (.error .missingApiKey, []) ∧
    convertToPseudocode none stub selText docText = ⟨.missingKeyError, []⟩ ∧
    provideHover c none rawLine stub = ⟨.missingKeyHover, c, []⟩ := by
  refine ⟨rfl, ?_, ?_⟩
  · simp [convertToPseudocode, convertSelected, hsel]
  · simp [provideHover, hne, hcm]

/-- Witness for C6. -/
theorem missing_credential_no_network_witness :
    codeToPseudocode none (fun _ => .ok "E") "x = y" = (.error .missingApiKey, []) ∧
    convertToPseudocode none (fun _ => .ok "E") "x = y" "" = ⟨.missingKeyError, []⟩ ∧
    provideHover [] none "x = y" (fun _ => .ok "E") = ⟨.missingKeyHover, [], []⟩ :=
  missing_credential_no_network [] "x = y" "x = y" "" "x = y"
    (fun _ => .ok "E") (by decide) (by decide) (by decide)

/-- Claim C7: when the service answers a request with a non-success HTTP
status, the bridge fails with a service error carrying that status and the
resolved upstream message; when the failure is network-level (no response),
it fails with the generic transport error instead. -/
theorem service_error_propagation (a code errMsg errMsg2 : String)
    (status : Nat) (dataMsg : Option String) (stub1 stub2 : String → ServiceResult)
    (h1 : stub1 (userMessage code) = .httpError status dataMsg errMsg)
    (h2 : stub2 (userMessage code) = .networkError errMsg2) :
    (codeToPseudocode (some a) stub1 code).1 =
      .error (.serviceError status (resolveErrorMessage dataMsg errMsg)) ∧
    (codeToPseudocode (some a) stub2 code).1 = .error (.transportError errMsg2) := by
  constructor
  · simp [codeToPseudocode, h1]
  · simp [codeToPseudocode, h2]

/-- Witness for C7: a stubbed 401 response yields a service error with
status 401; a stubbed socket failure yields a transport error. -/
theorem service_error_propagation_witness :
    (codeToPseudocode (some "key")
        (fun _ => .httpError 401 (some "invalid x-api-key") "Request failed") "x = y").1 =
      .error (.serviceError 401 (resolveErrorMessage (some "invalid x-api-key") "Request failed")) ∧
    (codeToPseudocode (some "key") (fun _ => .networkError "socket hang up") "x = y").1 =
      .error (.transportError "socket hang up") :=
  service_error_propagation "key" "x = y" "Request failed" "socket hang up" 401
    (some "invalid x-api-key")
    (fun _ => .httpError 401 (some "invalid x-api-key") "Request failed")
    (fun _ => .networkError "socket hang up") rfl rfl

/-- Claim C8: on a cache miss the hover conversion sends exactly one
request to the explanation service; when the service succeeds the only
cache mutation is the single store of the result under the fragment key,
and when it fails the invocation ends with the error hover, the cache is
left exactly as it was, and no further request is sent (the calls list is
still the one-element list: no retry). -/
theorem single_call_single_mutation (c : Cache) (a rawLine : String)
    (stub : String → ServiceResult)
    (hne : trim rawLine ≠ "")
    (hcm : startsWith (trim rawLine) "#" = false)
    (hmiss : lookup c (trim rawLine) = none) :
    (provideHover c (some a) rawLine stub).calls = [userMessage (trim rawLine)] ∧
    ((provideHover c (some a) rawLine stub).outcome =
      match stub (userMessage (trim rawLine)) with
      | .ok p => .freshHover p
      | .httpError st dm em => .errorHover (.serviceError st (resolveErrorMessage dm em))
      | .networkError em => .errorHover (.transportError em)) ∧
    ((provideHover c (some a) rawLine stub).cache =
      match stub (userMessage (trim rawLine)) with
      | .ok p => store c (trim rawLine) p
      | .httpError _ _ _ => c
      | .networkError _ => c) := by
  cases hstub : stub (userMessage (trim rawLine)) with
  | ok p =>
      refine ⟨?_, ?_, ?_⟩ <;> simp [provideHover, codeToPseudocode, hne, hcm, hmiss, hstub]
  | httpError st dm em =>
      refine ⟨?_, ?_, ?_⟩ <;> simp [provideHover, codeToPseudocode, hne, hcm, hmiss, hstub]
  | networkError em =>
      refine ⟨?_, ?_, ?_⟩ <;> simp [provideHover, codeToPseudocode, hne, hcm, hmiss, hstub]

/-- Witness for C8 at a service failure: one request, error outcome, cache
unchanged. -/
theorem single_call_single_mutation_witness :
    (provideHover [] (some "key") "x = y" (fun _ => .networkError "socket hang up")).calls =
      [userMessage (trim "x = y")] ∧
    ((provideHover [] (some "key") "x = y" (fun _ => .networkError "socket hang up")).outcome =
      match (fun _ => ServiceResult.networkError "socket hang up") (userMessage (trim "x = y")) with
      | .ok p => .freshHover p
      | .httpError st dm em => .errorHover (.serviceError st (resolveErrorMessage dm em))
      | .networkError em => .errorHover (.transportError em)) ∧
    ((provideHover [] (some "key") "x = y" (fun _ => .networkError "socket hang up")).cache =
      match (fun _ => ServiceResult.networkError "socket hang up") (userMessage (trim "x = y")) with
      | .ok p => store [] (trim "x = y") p
      | .httpError _ _ _ => []
      | .networkError _ => []) :=
  single_call_single_mutation [] "key" "x = y" (fun _ => .networkError "socket hang up")
    (by decide) (by decide) (by decide)

/-- Claim C10: in the command entry point a whitespace-only selection does
not fail: the conversion falls back to the whole document text (the single
request carries the document), and the empty-input failure arises exactly
when both the selection and the whole document are whitespace-only. -/
theorem selection_fallback (a selText docText sel doc : String) (apiKey : Option String)
    (stub : String → ServiceResult)
    (hsel : trim selText = "") (hdoc : trim docText ≠ "") :
    convertToPseudocode (some a) stub selText docText = convertSelected (some a) stub docText ∧
    (convertToPseudocode (some a) stub selText docText).calls = [userMessage docText] ∧
    ((convertToPseudocode apiKey stub sel doc).outcome = .emptyFileError ↔
      (trim sel = "" ∧ trim doc = "")) := by
  have h1 : convertToPseudocode (some a) stub selText docText =
      convertSelected (some a) stub docText := by
    simp [convertToPseudocode, hsel, hdoc]
  refine ⟨h1, ?_, ?_⟩
  · rw [h1]; exact convertSelected_calls a stub docText
  · by_cases hs : trim sel = ""
    · by_cases hd : trim doc = ""
      · simp [convertToPseudocode, hs, hd]
      · simp [convertToPseudocode, hs, hd, convertSelected_outcome_ne_empty]
    · simp [convertToPseudocode, hs, convertSelected_outcome_ne_empty]

/-- Witness for C10: a two-space selection with a real document converts
the document; with a blank selection and blank document the outcome is the
empty-file error. -/
theorem selection_fallback_witness :
    convertToPseudocode (some "key") (fun _ => .ok "PSEUDO") "  " "z = 1" =
      convertSelected (some "key") (fun _ => .ok "PSEUDO") "z = 1" ∧
    (convertToPseudocode (some "key") (fun _ => .ok "PSEUDO") "  " "z = 1").calls =
      [userMessage "z = 1"] ∧
    ((convertToPseudocode (some "key") (fun _ => .ok "PSEUDO") "" " ").outcome =
        .emptyFileError ↔ (trim "" = "" ∧ trim " " = "")) :=
  selection_fallback "key" "  " "z = 1" "" " " (some "key")
    (fun _ => .ok "PSEUDO") (by decide) (by decide)

end Code2Pseudocode
